import Mathlib

/- Shallow embedding of src/main.cpp of the model-predictive-control repository:
   the telemetry-processing gateway of a reference-tracking vehicle controller.
   Machine doubles are modelled as real numbers; the two external libraries that
   the file calls into (Eigen's householder QR solve and the MPC optimizer, whose
   sources are not part of this repository's src tree) are modelled as explicit
   function parameters bundled in `Externals`. -/

namespace Mpc

/-- `leadsList pat s` is true when `pat` occurs at the very front of `s`. -/
def leadsList : List Char → List Char → Bool
  | [], _ => true
  | _ :: _, [] => false
  | p :: ps, c :: cs => (p == c) && leadsList ps cs

/-- Smallest index at which `pat` occurs as a contiguous substring of `s`
    (C++ `std::string::find` / `find_first_of` for a one-character `pat`);
    `none` models `std::string::npos`. -/
def findSub (s pat : List Char) : Option Nat :=
  (List.range (s.length + 1)).find? (fun i => leadsList pat (s.drop i))

/-- Largest index at which `pat` occurs as a contiguous substring of `s`
    (C++ `std::string::rfind`); `none` models `std::string::npos`. -/
def rfindSub (s pat : List Char) : Option Nat :=
  ((List.range (s.length + 1)).filter (fun i => leadsList pat (s.drop i))).getLast?

/-- `s` contains `pat` as a contiguous substring. -/
def containsSub (s pat : List Char) : Bool :=
  (findSub s pat).isSome

/-- main.cpp lines 23-33, `hasData`: substring sniffing that decides whether a
    SocketIO event carries a JSON payload.  Returns the empty string when the
    frame contains the four characters "null" anywhere or lacks a '[' or a
    closing "\x7d]"; otherwise returns `s.substr(b1, b2 - b1 + 2)`.
    (In C++ the count `b2 - b1 + 2` is `size_t` arithmetic and `substr` clamps
    the count to the remaining length; with `b2 < b1` both the wrapped C++
    count and the truncated `Nat` count yield a nonempty extract, and no claim
    depends on the extracted characters in that corner.) -/
def hasData (s : List Char) : List Char :=
  match findSub s ("null".toList) with
  | some _ => []
  | none =>
    match findSub s ("[".toList), rfindSub s ("\x7d]".toList) with
    | some b1, some b2 => (s.drop b1).take (b2 - b1 + 2)
    | some _, none => []
    | none, _ => []

/-- main.cpp lines 36-42, `polyeval`: sum of `coeffs[i] * pow(x, i)` over the
    coefficient indices (C's `pow(0.0, 0)` is 1, matching `x ^ 0 = 1` here). -/
noncomputable def polyeval (coeffs : List ℝ) (x : ℝ) : ℝ :=
  (List.range coeffs.length).foldl (fun result i => result + coeffs.getD i 0 * x ^ i) 0

/-- main.cpp lines 50-60: the Vandermonde design matrix `A` of `polyfit`,
    row `j` being the monomials `1, x_j, x_j^2, ..., x_j^order`. -/
noncomputable def designMatrix (xvals : List ℝ) (order : Nat) : List (List ℝ) :=
  xvals.map (fun x => (List.range (order + 1)).map (fun i => x ^ i))

/-- Outcome of `polyfit`.  `abort` is a failed `assert`: in the source the
    two asserts of lines 48-49 terminate the process; there is no branch that
    returns a "degenerate fit" error value. -/
inductive FitOutcome where
  | abort
  | ok (coeffs : List ℝ)

/-- main.cpp lines 47-65, `polyfit`: asserts `xvals.size() == yvals.size()` and
    `order >= 1 && order <= xvals.size() - 1` (Eigen sizes are signed, so the
    comparison is over ℤ), then builds the design matrix and hands the
    least-squares solve to Eigen's `householderQr().solve`, modelled by the
    external parameter `qrSolve`. -/
noncomputable def polyfit (qrSolve : List (List ℝ) → List ℝ → List ℝ)
    (xvals yvals : List ℝ) (order : ℤ) : FitOutcome :=
  if xvals.length = yvals.length ∧ 1 ≤ order ∧ order ≤ (xvals.length : ℤ) - 1 then
    FitOutcome.ok (qrSolve (designMatrix xvals order.toNat) yvals)
  else FitOutcome.abort

/-- main.cpp lines 110-116: one waypoint mapped from the world frame into the
    vehicle body frame — translate by `(-px, -py)`, rotate by `-psi`. -/
noncomputable def transformToVehicle (px py psi x y : ℝ) : ℝ × ℝ :=
  ((x - px) * Real.cos (-psi) - (y - py) * Real.sin (-psi),
   (x - px) * Real.sin (-psi) + (y - py) * Real.cos (-psi))

/-- Modelled from the spec: the inverse body-to-world transform (rotate by
    `psi`, then translate by `(px, py)`).  The source contains only the
    world-to-vehicle direction; the spec's round-trip property (section 8)
    names this inverse. -/
noncomputable def transformToWorld (px py psi x y : ℝ) : ℝ × ℝ :=
  (x * Real.cos psi - y * Real.sin psi + px,
   x * Real.sin psi + y * Real.cos psi + py)

/-- main.cpp line 127: `cte = polyeval(coeffs, 0)`. -/
noncomputable def cteOf (coeffs : List ℝ) : ℝ := polyeval coeffs 0

/-- main.cpp line 129: `epsi = -atan(coeffs[1])`. -/
noncomputable def epsiOf (coeffs : List ℝ) : ℝ := -Real.arctan (coeffs.getD 1 0)

/-- main.cpp lines 131-137: the six-component state vector handed to the
    optimizer, `(0, 0, 0, v, cte, epsi)`. -/
noncomputable def buildState (v : ℝ) (coeffs : List ℝ) : List ℝ :=
  [0, 0, 0, v, cteOf coeffs, epsiOf coeffs]

/-- main.cpp lines 157-162: the reference-line x-samples, `d*i` for
    `i < num` with `d = 2.5`, `num = 25`. -/
noncomputable def next_x_vals : List ℝ :=
  (List.range 25).map (fun (i : ℕ) => 2.5 * (i : ℝ))

/-- main.cpp lines 157-162: the reference-line y-samples,
    `polyeval(coeffs, d*i)` for `i < num`. -/
noncomputable def next_y_vals (coeffs : List ℝ) : List ℝ :=
  (List.range 25).map (fun (i : ℕ) => polyeval coeffs (2.5 * (i : ℝ)))

/-- A list of (x, y) pairs flattened into the interleaved layout
    `x, y, x, y, ...` used by the optimizer's result sequence. -/
def interleave : List (ℝ × ℝ) → List ℝ
  | [] => []
  | p :: ps => p.1 :: p.2 :: interleave ps

/-- main.cpp lines 164-171, body of `for (i = 2; i < result.size(); i++)`:
    element at index `i` goes to `mpc_x_vals` when `i` is even and to
    `mpc_y_vals` when `i` is odd, in increasing order of `i`.  The first
    argument is the running index `i`. -/
def decodeLoop : Nat → List ℝ → List ℝ × List ℝ
  | _, [] => ([], [])
  | i, r :: rs =>
    if i % 2 = 0 then (r :: (decodeLoop (i + 1) rs).1, (decodeLoop (i + 1) rs).2)
    else ((decodeLoop (i + 1) rs).1, r :: (decodeLoop (i + 1) rs).2)

/-- main.cpp lines 164-171: `(mpc_x_vals, mpc_y_vals)` extracted from the
    optimizer result, starting the loop at index 2. -/
def decodeTraj (result : List ℝ) : List ℝ × List ℝ :=
  decodeLoop 2 (result.drop 2)

/-- The telemetry fields read at main.cpp lines 90-101.  `steering_angle` and
    `throttle` are read into `delta` and `a` and not used further, exactly as
    in the source. -/
structure Telemetry where
  x : ℝ
  y : ℝ
  psi : ℝ
  speed : ℝ
  steering_angle : ℝ
  throttle : ℝ
  ptsx : List ℝ
  ptsy : List ℝ

/-- The fields of the outbound `msgJson` of main.cpp lines 145-177. -/
structure SteerPayload where
  steering_angle : ℝ
  throttle : ℝ
  mpc_x : List ℝ
  mpc_y : List ℝ
  next_x : List ℝ
  next_y : List ℝ

/-- The two external numeric collaborators called by main.cpp whose sources are
    not under src/: Eigen's `householderQr().solve` (design matrix and rhs to
    coefficients) and `MPC::Solve` (state and coefficients to result
    sequence). -/
structure Externals where
  qrSolve : List (List ℝ) → List ℝ → List ℝ
  mpcSolve : List ℝ → List ℝ → List ℝ

/-- Modelled from the spec: the envelope parsing done by the external nlohmann
    json library (json.hpp is not under src/).  `thrown` is a
    `json::parse`/`get` exception on the extracted text; `parsed ev fields`
    is a successful parse with event name `ev`, where `fields` is the result
    of extracting the eight telemetry fields (`Except.error` when a required
    field is missing or non-numeric, which in the source throws when the
    value is converted). -/
inductive ParseOutcome where
  | thrown
  | parsed (event : List Char) (fields : Except Unit Telemetry)

/-- What one invocation of the `onMessage` handler does with a frame.
    `uncaughtException` models an exception escaping the handler (the source
    has no try/catch, so the process terminates); `assertAbort` models a
    failed `assert` inside `polyfit` (the process terminates). -/
inductive HandlerOutcome where
  | noReply
  | manualReply
  | steerReply (p : SteerPayload)
  | uncaughtException
  | assertAbort

/-- An outbound websocket text message: the fixed manual-driving string or a
    steer command with its payload. -/
inductive OutMsg where
  | manual (s : List Char)
  | steer (p : SteerPayload)

/-- Observable steps of one handler invocation, in program order: the
    `polyfit` call, the `mpc.Solve` call, the `sleep_for` (milliseconds), and
    a `ws.send`. -/
inductive GatewayEvent where
  | fitCall
  | solveCall
  | sleepMs (ms : Nat)
  | send (msg : OutMsg)

/-- main.cpp line 199: the literal manual-driving reply string. -/
def manualMsg : List Char := "42[\"manual\",\x7b\x7d]".toList

/-- main.cpp lines 103-116: the waypoints transformed into the vehicle frame,
    indexed over `ptsize = ptsx.size()`.  `List.getD _ _ 0` stands for the
    unchecked `operator[]` of the source (out-of-range access is undefined
    behavior in C++; no claim exercises unequal-length waypoint lists). -/
noncomputable def pts_car (t : Telemetry) : List (ℝ × ℝ) :=
  (List.range t.ptsx.length).map
    (fun i => transformToVehicle t.x t.y t.psi (t.ptsx.getD i 0) (t.ptsy.getD i 0))

/-- The `ptsx_car` vector of main.cpp line 114. -/
noncomputable def ptsx_car (t : Telemetry) : List ℝ := (pts_car t).map Prod.fst

/-- The `ptsy_car` vector of main.cpp line 115. -/
noncomputable def ptsy_car (t : Telemetry) : List ℝ := (pts_car t).map Prod.snd

/-- The coefficient vector of main.cpp line 124 in the non-aborting case:
    `polyfit(ptsx_car, ptsy_car, 3)` with the solve delegated to Eigen. -/
noncomputable def fitCoeffs (ext : Externals) (t : Telemetry) : List ℝ :=
  ext.qrSolve (designMatrix (ptsx_car t) 3) (ptsy_car t)

/-- The optimizer result of main.cpp line 140, `mpc.Solve(state, coeffs)`. -/
noncomputable def solveResult (ext : Externals) (t : Telemetry) : List ℝ :=
  ext.mpcSolve (buildState t.speed (fitCoeffs ext t)) (fitCoeffs ext t)

/-- main.cpp lines 142-177: the outbound steer payload assembled from the
    optimizer result — `result[0]`, `result[1]`, the decoded trajectory, and
    the independently computed reference line. -/
noncomputable def steerPayloadOf (ext : Externals) (t : Telemetry) (coeffs : List ℝ) :
    SteerPayload :=
  { steering_angle := (ext.mpcSolve (buildState t.speed coeffs) coeffs).getD 0 0
    throttle := (ext.mpcSolve (buildState t.speed coeffs) coeffs).getD 1 0
    mpc_x := (decodeTraj (ext.mpcSolve (buildState t.speed coeffs) coeffs)).1
    mpc_y := (decodeTraj (ext.mpcSolve (buildState t.speed coeffs) coeffs)).2
    next_x := next_x_vals
    next_y := next_y_vals coeffs }

/-- main.cpp lines 103-194: the telemetry branch of the handler — transform,
    fit (whose failed assert aborts), solve, payload assembly, 100 ms sleep,
    send.  The second component is the ordered trace of observable steps. -/
noncomputable def processTelemetry (ext : Externals) (t : Telemetry) :
    HandlerOutcome × List GatewayEvent :=
  match polyfit ext.qrSolve (ptsx_car t) (ptsy_car t) 3 with
  | FitOutcome.abort => (HandlerOutcome.assertAbort, [GatewayEvent.fitCall])
  | FitOutcome.ok coeffs =>
    (HandlerOutcome.steerReply (steerPayloadOf ext t coeffs),
     [GatewayEvent.fitCall, GatewayEvent.solveCall, GatewayEvent.sleepMs 100,
      GatewayEvent.send (OutMsg.steer (steerPayloadOf ext t coeffs))])

/-- main.cpp line 81: `sdata.size() > 2 && sdata[0] == '4' && sdata[1] == '2'`. -/
def isWsEvent (s : List Char) : Prop :=
  2 < s.length ∧ s.getD 0 ' ' = '4' ∧ s.getD 1 ' ' = '2'

instance (s : List Char) : Decidable (isWsEvent s) := by
  unfold isWsEvent; infer_instance

/-- main.cpp lines 73-205, the `onMessage` handler: prefix gate, `hasData`
    sniff, envelope parse (supplied as `parse`, since json.hpp is external),
    event dispatch, telemetry pipeline, manual fallback.  The second component
    is the ordered trace of observable steps of this invocation. -/
noncomputable def onMessage (ext : Externals) (parse : ParseOutcome) (sdata : List Char) :
    HandlerOutcome × List GatewayEvent :=
  if isWsEvent sdata then
    if hasData sdata ≠ [] then
      match parse with
      | ParseOutcome.thrown => (HandlerOutcome.uncaughtException, [])
      | ParseOutcome.parsed ev fields =>
        if ev = ("telemetry".toList) then
          match fields with
          | Except.error _ => (HandlerOutcome.uncaughtException, [])
          | Except.ok t => processTelemetry ext t
        else (HandlerOutcome.noReply, [])
    else (HandlerOutcome.manualReply, [GatewayEvent.send (OutMsg.manual manualMsg)])
  else (HandlerOutcome.noReply, [])

/-- True on the outcomes where a steer reply is emitted. -/
def isSteer : HandlerOutcome → Bool
  | HandlerOutcome.steerReply _ => true
  | _ => false

/-- The steer payload of an outcome, when there is one. -/
def steerOf? : HandlerOutcome → Option SteerPayload
  | HandlerOutcome.steerReply p => some p
  | _ => none

/-- Scans a trace left to right; the flag records whether a 100 ms sleep has
    already happened, and every steer send must find the flag set. -/
def sleptBefore : Bool → List GatewayEvent → Bool
  | _, [] => true
  | _, GatewayEvent.sleepMs 100 :: rest => sleptBefore true rest
  | ok, GatewayEvent.send (OutMsg.steer _) :: rest => ok && sleptBefore ok rest
  | ok, _ :: rest => sleptBefore ok rest

lemma length_ptsx_car (t : Telemetry) : (ptsx_car t).length = t.ptsx.length := by
  simp [ptsx_car, pts_car]

lemma length_ptsy_car (t : Telemetry) : (ptsy_car t).length = t.ptsx.length := by
  simp [ptsy_car, pts_car]

lemma polyfit3_eq_ok (qr : List (List ℝ) → List ℝ → List ℝ) (xs ys : List ℝ)
    (hlen : xs.length = ys.length) (h4 : 4 ≤ xs.length) :
    polyfit qr xs ys 3 = FitOutcome.ok (qr (designMatrix xs 3) ys) := by
  unfold polyfit
  rw [if_pos ⟨hlen, by norm_num, by omega⟩]
  rfl

lemma processTelemetry_ok (ext : Externals) (t : Telemetry) (h4 : 4 ≤ t.ptsx.length) :
    processTelemetry ext t =
      (HandlerOutcome.steerReply (steerPayloadOf ext t (fitCoeffs ext t)),
       [GatewayEvent.fitCall, GatewayEvent.solveCall, GatewayEvent.sleepMs 100,
        GatewayEvent.send (OutMsg.steer (steerPayloadOf ext t (fitCoeffs ext t)))]) := by
  unfold processTelemetry
  rw [polyfit3_eq_ok _ _ _ (by rw [length_ptsx_car, length_ptsy_car])
    (by rw [length_ptsx_car]; exact h4)]
  rfl

lemma decodeLoop_interleave (ps : List (ℝ × ℝ)) :
    ∀ i, i % 2 = 0 → decodeLoop i (interleave ps) = (ps.map Prod.fst, ps.map Prod.snd) := by
  induction ps with
  | nil => intro i _; simp [interleave, decodeLoop]
  | cons p ps ih =>
    intro i h
    have h1 : ¬ (i + 1) % 2 = 0 := by omega
    have h2 : (i + 2) % 2 = 0 := by omega
    simp [interleave, decodeLoop, h, h1, ih (i + 2) h2]

lemma decodeLoop_interleave_append (ps : List (ℝ × ℝ)) (z : ℝ) :
    ∀ i, i % 2 = 0 →
      decodeLoop i (interleave ps ++ [z]) = (ps.map Prod.fst ++ [z], ps.map Prod.snd) := by
  induction ps with
  | nil => intro i h; simp [interleave, decodeLoop, h]
  | cons p ps ih =>
    intro i h
    have h1 : ¬ (i + 1) % 2 = 0 := by omega
    have h2 : (i + 2) % 2 = 0 := by omega
    simp [interleave, decodeLoop, h, h1, ih (i + 2) h2]

lemma decodeTraj_pairs (s t : ℝ) (ps : List (ℝ × ℝ)) :
    decodeTraj (s :: t :: interleave ps) = (ps.map Prod.fst, ps.map Prod.snd) :=
  decodeLoop_interleave ps 2 rfl

lemma decodeTraj_pairs_append (s t z : ℝ) (ps : List (ℝ × ℝ)) :
    decodeTraj (s :: t :: (interleave ps ++ [z])) =
      (ps.map Prod.fst ++ [z], ps.map Prod.snd) :=
  decodeLoop_interleave_append ps z 2 rfl

lemma hasData_eq_nil (s : List Char)
    (h : findSub s ("null".toList) ≠ none ∨ findSub s ("[".toList) = none ∨
      rfindSub s ("\x7d]".toList) = none) :
    hasData s = [] := by
  unfold hasData
  rcases h1 : findSub s ("null".toList) with _ | v1
  · rcases h2 : findSub s ("[".toList) with _ | v2
    · simp
    · rcases h3 : rfindSub s ("\x7d]".toList) with _ | v3
      · simp
      · rcases h with h | h | h
        · exact absurd h1 h
        · exact absurd (h2 ▸ h) (by simp)
        · exact absurd (h3 ▸ h) (by simp)
  · simp

lemma onMessage_manual (ext : Externals) (parse : ParseOutcome) (sdata : List Char)
    (hws : isWsEvent sdata) (hnil : hasData sdata = []) :
    onMessage ext parse sdata =
      (HandlerOutcome.manualReply, [GatewayEvent.send (OutMsg.manual manualMsg)]) := by
  unfold onMessage
  rw [if_pos hws]
  simp [hnil]

/-- A trivial stand-in for the external QR solver, used to instantiate
    theorems at concrete inputs. -/
noncomputable def qr0 : List (List ℝ) → List ℝ → List ℝ := fun _ _ => []

/-- Concrete externals: the QR solve returns the zero polynomial and the
    optimizer returns the five-element (odd-trailing) result
    `[0.1, 0.5, 10, 1, 20]`. -/
noncomputable def ext0 : Externals :=
  { qrSolve := fun _ _ => [0, 0, 0, 0]
    mpcSolve := fun _ _ => [0.1, 0.5, 10, 1, 20] }

/-- A concrete telemetry snapshot with four waypoints. -/
noncomputable def t0 : Telemetry :=
  { x := 0, y := 0, psi := 0, speed := 0, steering_angle := 0, throttle := 0,
    ptsx := [0, 1, 2, 3], ptsy := [0, 0, 0, 0] }

/-- C6: for every 4-coefficient polynomial model and speed `v`, the estimator
    yields `cte` exactly equal to the constant coefficient (the polynomial at
    `x = 0`), `epsi` exactly `-arctan` of the linear coefficient, and the
    assembled 6-element state is `(0, 0, 0, v, cte, epsi)` with the first
    three components zero. -/
theorem c6_tracking_error_estimator (a0 a1 a2 a3 v : ℝ) :
    cteOf [a0, a1, a2, a3] = a0 ∧
    epsiOf [a0, a1, a2, a3] = -Real.arctan a1 ∧
    buildState v [a0, a1, a2, a3] = [0, 0, 0, v, a0, -Real.arctan a1] := by
  have hc : cteOf [a0, a1, a2, a3] = a0 := by
    unfold cteOf polyeval
    norm_num [List.range_succ, List.getD]
  have he : epsiOf [a0, a1, a2, a3] = -Real.arctan a1 := by
    unfold epsiOf
    norm_num [List.getD]
  exact ⟨hc, he, by unfold buildState; rw [hc, he]⟩

/-- C7: the reference-line sample has exactly 25 points, with
    `next_x[i] = 2.5 * i` and `next_y[i]` the polynomial evaluated at
    `2.5 * i`, for every `i < 25`, computed from the coefficients alone. -/
theorem c7_reference_line (c : List ℝ) :
    next_x_vals.length = 25 ∧ (next_y_vals c).length = 25 ∧
    ∀ i, i < 25 →
      next_x_vals.getD i 0 = 2.5 * (i : ℝ) ∧
      (next_y_vals c).getD i 0 = polyeval c (2.5 * (i : ℝ)) := by
  refine ⟨?_, ?_, ?_⟩
  · simp only [next_x_vals, List.length_map, List.length_range]
  · simp only [next_y_vals, List.length_map, List.length_range]
  · intro i hi
    constructor
    · simp only [next_x_vals, List.getD_eq_getElem?_getD, List.getElem?_map,
        List.getElem?_range hi, Option.map_some', Option.getD_some]
    · simp only [next_y_vals, List.getD_eq_getElem?_getD, List.getElem?_map,
        List.getElem?_range hi, Option.map_some', Option.getD_some]

/-- C7 witness: the reference-line facts instantiated at coefficients
    `[1, 2, 3, 4]` and sample index 7. -/
theorem c7_witness :
    next_x_vals.getD 7 0 = 2.5 * ((7 : ℕ) : ℝ) ∧
    (next_y_vals [(1 : ℝ), 2, 3, 4]).getD 7 0 = polyeval [(1 : ℝ), 2, 3, 4] (2.5 * ((7 : ℕ) : ℝ)) :=
  (c7_reference_line [(1 : ℝ), 2, 3, 4]).2.2 7 (by decide)

/-- C8: composing the world-to-vehicle transform of the handler with the
    inverse vehicle-to-world transform recovers the original point exactly,
    hence within the 1e-9 tolerance the spec states. -/
theorem c8_transform_round_trip (px py psi x y : ℝ) :
    transformToWorld px py psi (transformToVehicle px py psi x y).1
        (transformToVehicle px py psi x y).2 = (x, y) ∧
    |(transformToWorld px py psi (transformToVehicle px py psi x y).1
        (transformToVehicle px py psi x y).2).1 - x| ≤ 1e-9 ∧
    |(transformToWorld px py psi (transformToVehicle px py psi x y).1
        (transformToVehicle px py psi x y).2).2 - y| ≤ 1e-9 := by
  have hpyth := Real.sin_sq_add_cos_sq psi
  have h1 : (transformToWorld px py psi (transformToVehicle px py psi x y).1
      (transformToVehicle px py psi x y).2).1 = x := by
    simp only [transformToVehicle, transformToWorld, Real.cos_neg, Real.sin_neg]
    linear_combination (x - px) * hpyth
  have h2 : (transformToWorld px py psi (transformToVehicle px py psi x y).1
      (transformToVehicle px py psi x y).2).2 = y := by
    simp only [transformToVehicle, transformToWorld, Real.cos_neg, Real.sin_neg]
    linear_combination (y - py) * hpyth
  refine ⟨Prod.ext h1 h2, ?_, ?_⟩
  · rw [h1, sub_self, abs_zero]; norm_num
  · rw [h2, sub_self, abs_zero]; norm_num

/-- C1 (amended): at the fitter's only call site (`order = 3`), the assertion
    branch of `polyfit` — which terminates the process, rather than returning
    a "degenerate fit" error value — is taken exactly when the number of
    points is less than `order + 1 = 4`. -/
theorem c1_degenerate_fit (qr : List (List ℝ) → List ℝ → List ℝ) (xs ys : List ℝ)
    (hlen : xs.length = ys.length) :
    polyfit qr xs ys 3 = FitOutcome.abort ↔ xs.length < 4 := by
  unfold polyfit
  by_cases h4 : 4 ≤ xs.length
  · rw [if_pos ⟨hlen, by norm_num, by omega⟩]
    simp
    omega
  · rw [if_neg (fun hcond => h4 (by have := hcond.2.2; omega))]
    simp
    omega

/-- C1 counterexample: at three points the fitter's assertion fires and the
    outcome is the process-terminating `abort`, not an explicit error
    result — the modelled `FitOutcome` has no error-value branch at all. -/
theorem c1_counterexample :
    polyfit qr0 [(0 : ℝ), 1, 2] [(0 : ℝ), 1, 2] 3 = FitOutcome.abort := by
  rfl

/-- C1 witness: the amended equivalence instantiated at a concrete
    three-point input. -/
theorem c1_witness :
    (polyfit qr0 [(0 : ℝ), 1, 2] [(0 : ℝ), 1, 2] 3 = FitOutcome.abort) ↔
      List.length [(0 : ℝ), 1, 2] < 4 :=
  c1_degenerate_fit qr0 [0, 1, 2] [0, 1, 2] rfl

/-- C5: when the optimizer returns `s, th` followed by interleaved (x, y)
    pairs, the emitted command has steering `s` (result[0]), throttle `th`
    (result[1]), `mpc_x` the even-indexed trailing elements in order and
    `mpc_y` the odd-indexed ones, alongside the reference line. -/
theorem c5_result_decoding (qr : List (List ℝ) → List ℝ → List ℝ) (s th : ℝ)
    (ps : List (ℝ × ℝ)) (t : Telemetry) (h4 : 4 ≤ t.ptsx.length) :
    steerOf? (processTelemetry ⟨qr, fun _ _ => s :: th :: interleave ps⟩ t).1 =
      some { steering_angle := s, throttle := th,
             mpc_x := ps.map Prod.fst, mpc_y := ps.map Prod.snd,
             next_x := next_x_vals,
             next_y := next_y_vals
               (fitCoeffs ⟨qr, fun _ _ => s :: th :: interleave ps⟩ t) } := by
  rw [processTelemetry_ok _ _ h4]
  simp [steerOf?, steerPayloadOf, decodeTraj_pairs]

/-- C5 witness: with optimizer result `[0.1, 0.5, 10, 1, 20, 2]` the command
    is steering 0.1, throttle 0.5, `mpc_x = [10, 20]`, `mpc_y = [1, 2]`. -/
theorem c5_witness :
    steerOf? (processTelemetry
        ⟨qr0, fun _ _ => (0.1 : ℝ) :: (0.5 : ℝ) :: interleave [((10 : ℝ), (1 : ℝ)), (20, 2)]⟩
        t0).1 =
      some { steering_angle := 0.1, throttle := 0.5, mpc_x := [10, 20], mpc_y := [1, 2],
             next_x := next_x_vals,
             next_y := next_y_vals (fitCoeffs
               ⟨qr0, fun _ _ => (0.1 : ℝ) :: (0.5 : ℝ) :: interleave [((10 : ℝ), (1 : ℝ)), (20, 2)]⟩
               t0) } :=
  c5_result_decoding qr0 0.1 0.5 [(10, 1), (20, 2)] t0 (by decide)

/-- C2 (amended): the handler performs no shape validation of the optimizer
    result.  An odd-length trailing portion is decoded by parity with the
    final element silently placed in `mpc_x` (never dropped, never reported),
    and whenever the fit assertion passes the telemetry branch always emits a
    steer reply; no error outcome exists for a malformed result.  (Results of
    length below 2 make the source read `result[0]`/`result[1]` out of
    bounds — undefined behavior — rather than raising an error.) -/
theorem c2_optimizer_result_unvalidated (s th z : ℝ) (ps : List (ℝ × ℝ))
    (ext : Externals) (t : Telemetry) (h4 : 4 ≤ t.ptsx.length)
    (_hres : 2 ≤ (solveResult ext t).length) :
    decodeTraj (s :: th :: (interleave ps ++ [z])) =
      (ps.map Prod.fst ++ [z], ps.map Prod.snd) ∧
    isSteer (processTelemetry ext t).1 = true := by
  refine ⟨decodeTraj_pairs_append s th z ps, ?_⟩
  rw [processTelemetry_ok _ _ h4]
  rfl

/-- C2 witness: the amended statement at the concrete odd result
    `[0.1, 0.5, 10, 1, 20]`. -/
theorem c2_witness :
    decodeTraj ((0.1 : ℝ) :: (0.5 : ℝ) :: (interleave [((10 : ℝ), (1 : ℝ))] ++ [20])) =
      ([10, 20], [1]) ∧
    isSteer (processTelemetry ext0 t0).1 = true :=
  c2_optimizer_result_unvalidated 0.1 0.5 20 [(10, 1)] ext0 t0 (by decide) (by decide)

/-- C2 counterexample: with the optimizer returning the odd-shaped
    `[0.1, 0.5, 10, 1, 20]`, the handler emits a steer reply (no
    OptimizerContractError, no suppressed reply) whose `mpc_x` is `[10, 20]`
    — the unpaired last element 20 is silently emitted — and whose `mpc_y`
    is `[1]`. -/
theorem c2_counterexample :
    isSteer (processTelemetry ext0 t0).1 = true ∧
    Option.map (fun p => p.mpc_x) (steerOf? (processTelemetry ext0 t0).1) =
      some [(10 : ℝ), 20] ∧
    Option.map (fun p => p.mpc_y) (steerOf? (processTelemetry ext0 t0).1) =
      some [(1 : ℝ)] := by
  refine ⟨?_, ?_, ?_⟩ <;> rfl

/-- C3 (amended): a "42"-prefixed frame is never dropped silently.  When the
    substring sniff finds no payload the fixed manual reply is sent; when a
    payload is extracted but parsing it throws, the exception escapes the
    handler (there is no try/catch), which terminates the process. -/
theorem c3_malformed_frames (ext : Externals) (sdata : List Char)
    (hws : isWsEvent sdata) :
    (hasData sdata = [] →
      onMessage ext ParseOutcome.thrown sdata =
        (HandlerOutcome.manualReply, [GatewayEvent.send (OutMsg.manual manualMsg)])) ∧
    (hasData sdata ≠ [] →
      onMessage ext ParseOutcome.thrown sdata = (HandlerOutcome.uncaughtException, [])) := by
  constructor
  · intro hnil
    exact onMessage_manual ext ParseOutcome.thrown sdata hws hnil
  · intro hne
    unfold onMessage
    rw [if_pos hws, if_pos hne]

/-- C3 witness: the frame `42["telemetry",x}]` passes the sniff, its extract
    is not valid JSON, and the handler ends in an uncaught exception. -/
theorem c3_witness :
    onMessage ext0 ParseOutcome.thrown ("42[\"telemetry\",x\x7d]".toList) =
      (HandlerOutcome.uncaughtException, []) :=
  (c3_malformed_frames ext0 _ (by decide)).2 (by decide)

/-- C3 counterexample: the malformed frame `42[x}]` is not dropped with a
    recoverable per-event protocol error — the extracted text `[x}]` fails to
    parse and the exception propagates out of the handler, terminating the
    process. -/
theorem c3_counterexample :
    onMessage ext0 ParseOutcome.thrown ("42[x\x7d]".toList) =
      (HandlerOutcome.uncaughtException, []) := by
  rfl

/-- C4 (amended): for every "42"-prefixed frame whose text contains "null"
    (which covers every frame whose payload is the JSON null) or lacks the
    substring "\x7d]" (which covers ordinary absent-payload frames), the
    gateway replies with exactly the string `42["manual",\x7b\x7d]` and the
    trace shows no fit, no solve, and no other send.  (An absent-payload
    frame whose event name itself contains "\x7d]" instead reaches the
    parser and throws; see the counterexample.) -/
theorem c4_null_payload_manual (ext : Externals) (parse : ParseOutcome)
    (sdata : List Char) (hws : isWsEvent sdata)
    (h : containsSub sdata ("null".toList) = true ∨
      rfindSub sdata ("\x7d]".toList) = none) :
    onMessage ext parse sdata =
      (HandlerOutcome.manualReply,
       [GatewayEvent.send (OutMsg.manual ("42[\"manual\",\x7b\x7d]".toList))]) := by
  apply onMessage_manual ext parse sdata hws
  apply hasData_eq_nil
  rcases h with h | h
  · left
    unfold containsSub at h
    intro hnone
    rw [hnone] at h
    simp at h
  · right; right; exact h

/-- C4 witness: a telemetry frame with a null payload receives exactly the
    manual reply and nothing else happens. -/
theorem c4_witness :
    onMessage ext0 ParseOutcome.thrown ("42[\"telemetry\",null]".toList) =
      (HandlerOutcome.manualReply,
       [GatewayEvent.send (OutMsg.manual ("42[\"manual\",\x7b\x7d]".toList))]) :=
  c4_null_payload_manual ext0 ParseOutcome.thrown _ (by decide) (Or.inl (by decide))

/-- C4 counterexample: the frame `42["x}]"]` is a well-formed envelope whose
    payload is absent, yet the gateway does not reply `42["manual",\x7b\x7d]`:
    the sniff extracts `["x\x7d]`, whose parse throws, and the handler ends in
    an uncaught exception. -/
theorem c4_counterexample :
    onMessage ext0 ParseOutcome.thrown ("42[\"x\x7d]\"]".toList) =
      (HandlerOutcome.uncaughtException, []) := by
  rfl

/-- C9: in every handler invocation, any steer send in the observable trace
    is preceded by the 100 ms sleep — the artificial actuation latency is
    applied strictly before the command reply leaves the pipeline. -/
theorem c9_latency_before_send (ext : Externals) (parse : ParseOutcome)
    (sdata : List Char) :
    sleptBefore false (onMessage ext parse sdata).2 = true := by
  unfold onMessage
  by_cases hws : isWsEvent sdata
  case neg => rw [if_neg hws]; rfl
  rw [if_pos hws]
  by_cases hd : hasData sdata ≠ []
  case neg => rw [if_neg hd]; rfl
  rw [if_pos hd]
  cases parse with
  | thrown => rfl
  | parsed ev fields =>
    dsimp only
    by_cases hev : ev = ("telemetry".toList)
    case neg => rw [if_neg hev]; rfl
    rw [if_pos hev]
    cases fields with
    | error e => rfl
    | ok t =>
      dsimp only
      unfold processTelemetry
      cases hpf : polyfit ext.qrSolve (ptsx_car t) (ptsy_car t) 3 with
      | abort => rfl
      | ok coeffs => rfl

/-- C10: payload presence is decided by substring sniffing — any
    "42"-prefixed frame that contains "null" anywhere, or has no '[', or has
    no "\x7d]", gets the manual-driving reply, regardless of the event name
    or of the payload it actually carries. -/
theorem c10_substring_sniffing (ext : Externals) (parse : ParseOutcome)
    (sdata : List Char) (hws : isWsEvent sdata)
    (h : containsSub sdata ("null".toList) = true ∨
      findSub sdata ("[".toList) = none ∨
      rfindSub sdata ("\x7d]".toList) = none) :
    onMessage ext parse sdata =
      (HandlerOutcome.manualReply, [GatewayEvent.send (OutMsg.manual manualMsg)]) := by
  apply onMessage_manual ext parse sdata hws
  apply hasData_eq_nil
  rcases h with h | h | h
  · left
    unfold containsSub at h
    intro hnone
    rw [hnone] at h
    simp at h
  · right; left; exact h
  · right; right; exact h

/-- C10 witness: the frame `42["telemetry",{"x":null}]` names the telemetry
    event and carries a well-formed JSON payload, yet the "null" substring
    routes it to the manual reply. -/
theorem c10_witness :
    onMessage ext0 ParseOutcome.thrown
        ("42[\"telemetry\",\x7b\"x\":null\x7d]".toList) =
      (HandlerOutcome.manualReply, [GatewayEvent.send (OutMsg.manual manualMsg)]) :=
  c10_substring_sniffing ext0 ParseOutcome.thrown _ (by decide) (Or.inl (by decide))

end Mpc
